import Mathlib

/-!
Verification of the odds-collector pipeline: a shallow embedding of the
discovery → scheduling → execution pipeline, its persistent job queue
(`src/core/JobScheduler.ts` over the D1/SQLite schema in
`migrations/0001_initial_schema.sql`), the snapshot store key layout
(`src/storage/R2Storage.ts`), the path utilities (`src/utils/pathUtils.ts`)
and the index builder (`src/core/IndexBuilder.ts`).

Modelling conventions:
* instants (kickoff, scheduled, created, attempt and build timestamps) are
  integers — milliseconds since the epoch; ISO-8601 UTC strings and SQLite
  datetime strings compare consistently with the instants they denote;
* JavaScript objects used as string-keyed dictionaries are association
  lists in insertion order (`JSON.parse`/`Object.entries` preserve it);
* fallible operations return `Except String`; a thrown JS exception is the
  `Except.error` case carrying its message.
-/

namespace OddsCollector

/-! ## pathUtils (`src/utils/pathUtils.ts`) -/

/-- Character-level model of JS `s.slice(0, n)` / `s.substring(0, n)` on
the code points of `s` (executable stand-in for `String.take`). -/
def strTake (s : String) (n : Nat) : String := String.mk (s.data.take n)

/-- Character-level model of JS `s.substring(n)` (stand-in for
`String.drop`). -/
def strDrop (s : String) (n : Nat) : String := String.mk (s.data.drop n)

/-- Numeric value of a decimal digit character. -/
def digitVal (c : Char) : Option Nat :=
  if '0' ≤ c ∧ c ≤ '9' then some (c.toNat - '0'.toNat) else none

/-- Accumulating decimal parse of a character list. -/
def parseNatGo (acc : Nat) : List Char → Option Nat
  | [] => some acc
  | c :: cs =>
    match digitVal c with
    | some d => parseNatGo (acc * 10 + d) cs
    | none => none

/-- Decimal parse of a string (stand-in for `String.toNat?`): all-digit and
non-empty, otherwise `none`. -/
def strToNat (s : String) : Option Nat :=
  if s.data.isEmpty then none else parseNatGo 0 s.data

/-- Join a list of strings with a separator (stand-in for
`Array.prototype.join` / `String.intercalate`). -/
def joinSep (sep : String) : List String → String
  | [] => ""
  | [s] => s
  | s :: rest => s ++ sep ++ joinSep sep rest

/-- Step of `formatTeamNameForPath`: the regex replace of `\s+` with an
underscore, i.e. each maximal whitespace run becomes one `_`.  The boolean
records whether the previous character was whitespace. -/
def collapseWs : Bool → List Char → List Char
  | _, [] => []
  | prevWs, c :: rest =>
    if c.isWhitespace then
      if prevWs then collapseWs true rest
      else '_' :: collapseWs true rest
    else c :: collapseWs false rest

/-- Source `formatTeamNameForPath`: `teamName.replace(/\s+/g, '_')`. -/
def formatTeamNameForPath (teamName : String) : String :=
  String.mk (collapseWs false teamName.toList)

/-- Source `generateJobId`: `` `${eventId}_${timing}` ``. -/
def generateJobId (eventId timing : String) : String :=
  eventId ++ "_" ++ timing

/-- Source `generateMatchKey`: `` `${home}_${away}_${date}` `` with both
team names passed through `formatTeamNameForPath`. -/
def generateMatchKey (homeTeam awayTeam date : String) : String :=
  formatTeamNameForPath homeTeam ++ "_" ++ formatTeamNameForPath awayTeam ++ "_" ++ date

/-- Source `generateSnapshotPath`:
`{league}/{season}/snapshots/{timing}/{date}/{home}_vs_{away}_{eventIdShort}.json`
where `eventIdShort = eventId.slice(0, 7)`. -/
def generateSnapshotPath
    (leagueId season timing date homeTeam awayTeam eventId : String) : String :=
  let home := formatTeamNameForPath homeTeam
  let away := formatTeamNameForPath awayTeam
  let shortEventId := strTake eventId 7
  leagueId ++ "/" ++ season ++ "/snapshots/" ++ timing ++ "/" ++ date ++ "/" ++
    home ++ "_vs_" ++ away ++ "_" ++ shortEventId ++ ".json"

/-- Source `generateIndexPath`: `{league}/{season}/index/{indexType}.json`. -/
def generateIndexPath (leagueId season indexType : String) : String :=
  leagueId ++ "/" ++ season ++ "/index/" ++ indexType ++ ".json"

/-- Year and month that `new Date(matchDate)` yields in a UTC runtime for an
ISO `YYYY-MM-DD...` string: the year is the first four characters, the month
characters five and six.  `none` models an unparsable date (JS `NaN`). -/
def parseYearMonth (matchDate : String) : Option (Nat × Nat) :=
  match strToNat (strTake matchDate 4), strToNat (strTake (strDrop matchDate 5) 2) with
  | some y, some m => some (y, m)
  | _, _ => none

/-- Source `inferSeasonFromDate`: month ≥ 8 gives `{year}-{year+1}`,
otherwise `{year-1}-{year}`; `none` when the date cannot be parsed. -/
def inferSeasonFromDate (matchDate : String) : Option String :=
  (parseYearMonth matchDate).map fun ym =>
    if ym.2 ≥ 8 then toString ym.1 ++ "-" ++ toString (ym.1 + 1)
    else toString (ym.1 - 1) ++ "-" ++ toString ym.1

/-- Source `calculateScheduledTime`:
`kickoff.getTime() - hoursBeforeKickoff * 60 * 60 * 1000`. -/
def calculateScheduledTime (kickoffTime : Int) (hoursBeforeKickoff : Int) : Int :=
  kickoffTime - hoursBeforeKickoff * 60 * 60 * 1000

/-! ## Snapshot store key layout (`src/storage/R2Storage.ts`) -/

/-- Snapshot metadata, the fields of `OddsSnapshot.metadata` the key layout
depends on (`src/config/types` is consumed through here). -/
structure SnapshotMetadata where
  timestamp : Int
  date : String
  league : String
  season : String
  snapshotTiming : String
  eventId : String
  kickoffTime : Int
deriving DecidableEq, Repr

/-- Snapshot artifact: metadata plus the odds payload; of the payload only
`odds.id` matters to the storage key. -/
structure OddsSnapshot where
  metadata : SnapshotMetadata
  oddsEventId : String
deriving DecidableEq, Repr

/-- Source `R2Storage.getKey`: prepend the base path when non-empty, drop
empty parts (`filter(Boolean)`) and join with `/`. -/
def getKey (basePath : String) (parts : List String) : String :=
  joinSep "/"
    (((if basePath = "" then parts else basePath :: parts)).filter (fun p => p ≠ ""))

/-- Source `R2Storage.getSnapshotId`: `` `${odds.id}_{snapshotTiming}_{date}` ``. -/
def getSnapshotId (s : OddsSnapshot) : String :=
  s.oddsEventId ++ "_" ++ s.metadata.snapshotTiming ++ "_" ++ s.metadata.date

/-- Key at which `R2Storage.saveSnapshot` writes:
`getKey('leagues', leagueId, season, snapshotId + '.json')`. -/
def saveSnapshotKey (basePath leagueId season : String) (s : OddsSnapshot) : String :=
  getKey basePath ["leagues", leagueId, season, getSnapshotId s ++ ".json"]

/-! ## Job queue (`src/core/JobScheduler.ts` over `migrations/0001_initial_schema.sql`) -/

/-- Status column of `scheduled_jobs`. -/
inductive JobStatus where
  | pending
  | running
  | completed
  | failed
deriving DecidableEq, Repr

/-- Row of the `scheduled_jobs` table / the `ScheduledJob` record. -/
structure ScheduledJob where
  id : String
  leagueId : String
  eventId : String
  homeTeam : String
  awayTeam : String
  matchDate : String
  kickoffTime : Int
  timingOffset : String
  scheduledTime : Int
  status : JobStatus
  attempts : Nat
  lastAttempt : Option Int
  snapshotPath : Option String
  error : Option String
  createdAt : Int
  completedAt : Option Int
deriving DecidableEq, Repr

/-- Insert argument of `scheduleJob`:
`Omit<ScheduledJob, 'attempts' | 'status' | 'createdAt'>` (the columns the
INSERT lists besides `created_at CURRENT_TIMESTAMP`). -/
structure NewJob where
  id : String
  leagueId : String
  eventId : String
  homeTeam : String
  awayTeam : String
  matchDate : String
  kickoffTime : Int
  timingOffset : String
  scheduledTime : Int
deriving DecidableEq, Repr

/-- Row a successful `scheduleJob` INSERT creates: listed columns from the
argument, `status`/`attempts` from their schema defaults, `created_at` from
`CURRENT_TIMESTAMP`, everything else NULL. -/
def insertedRow (job : NewJob) (now : Int) : ScheduledJob :=
  { id := job.id
    leagueId := job.leagueId
    eventId := job.eventId
    homeTeam := job.homeTeam
    awayTeam := job.awayTeam
    matchDate := job.matchDate
    kickoffTime := job.kickoffTime
    timingOffset := job.timingOffset
    scheduledTime := job.scheduledTime
    status := JobStatus.pending
    attempts := 0
    lastAttempt := none
    snapshotPath := none
    error := none
    createdAt := now
    completedAt := none }

/-- Source `JobScheduler.scheduleJob`: a plain
`INSERT INTO scheduled_jobs (...) VALUES (...)`.  The `id` column is
`TEXT PRIMARY KEY` (migration `0001_initial_schema.sql`), so SQLite rejects
an INSERT whose id already exists with a UNIQUE-constraint error instead of
inserting or ignoring. -/
def scheduleJob (table : List ScheduledJob) (job : NewJob) (now : Int) :
    Except String (List ScheduledJob) :=
  if table.any (fun r => r.id == job.id) then
    Except.error "UNIQUE constraint failed: scheduled_jobs.id"
  else
    Except.ok (table ++ [insertedRow job now])

/-- Source `JobScheduler.getJob`: `SELECT * FROM scheduled_jobs WHERE id = ?`
taking the first row. -/
def getJob (table : List ScheduledJob) (jobId : String) : Option ScheduledJob :=
  table.find? (fun r => r.id == jobId)

/-- Predicate of `getJobsDueWithin`: `status = 'pending' AND
datetime(scheduled_time) <= datetime('now', '+' || minutes || ' minutes')`. -/
def isDueWithin (now minutes : Int) (j : ScheduledJob) : Bool :=
  decide (j.status = JobStatus.pending) && decide (j.scheduledTime ≤ now + minutes * 60000)

/-- Ordering relation of `ORDER BY scheduled_time ASC`. -/
def byScheduledTime (a b : ScheduledJob) : Prop :=
  a.scheduledTime ≤ b.scheduledTime

instance : DecidableRel byScheduledTime :=
  fun a b => inferInstanceAs (Decidable (a.scheduledTime ≤ b.scheduledTime))

instance : IsTotal ScheduledJob byScheduledTime :=
  ⟨fun a b => Int.le_total a.scheduledTime b.scheduledTime⟩

instance : IsTrans ScheduledJob byScheduledTime :=
  ⟨fun _ _ _ h1 h2 => le_trans h1 h2⟩

/-- Source `JobScheduler.getJobsDueWithin`: filter by the WHERE predicate,
sort ascending by `scheduled_time`, apply `LIMIT maxJobs`. -/
def getJobsDueWithin (table : List ScheduledJob) (now minutes : Int) (maxJobs : Nat) :
    List ScheduledJob :=
  (((table.filter (isDueWithin now minutes)).insertionSort byScheduledTime).take maxJobs)

/-- JavaScript coercion in the bind list of `updateJobStatus`
(`snapshotPath || null`, `error || null`): `undefined` and the empty string
both become NULL. -/
def jsStringOrNull : Option String → Option String
  | some s => if s = "" then none else some s
  | none => none

/-- SQL `COALESCE` on two nullable text values. -/
def sqlCoalesce : Option String → Option String → Option String
  | some x, _ => some x
  | none, b => b

/-- SET clause of `JobScheduler.updateJobStatus` applied to one row:
status overwritten, `attempts = attempts + 1`,
`last_attempt = CURRENT_TIMESTAMP`,
`snapshot_path = COALESCE(?, snapshot_path)`, `error = ?`,
`completed_at = CASE WHEN ? IN ('completed','failed') THEN CURRENT_TIMESTAMP
ELSE completed_at END`. -/
def applyStatusUpdate (row : ScheduledJob) (status : JobStatus)
    (snapshotPath : Option String) (error : Option String) (now : Int) : ScheduledJob :=
  { row with
    status := status
    attempts := row.attempts + 1
    lastAttempt := some now
    snapshotPath := sqlCoalesce (jsStringOrNull snapshotPath) row.snapshotPath
    error := jsStringOrNull error
    completedAt :=
      if status = JobStatus.completed ∨ status = JobStatus.failed then some now
      else row.completedAt }

/-- Source `JobScheduler.updateJobStatus`: the UPDATE touches exactly the
rows matching `WHERE id = ?`. -/
def updateJobStatus (table : List ScheduledJob) (jobId : String) (status : JobStatus)
    (snapshotPath : Option String) (error : Option String) (now : Int) :
    List ScheduledJob :=
  table.map (fun r => if r.id == jobId then applyStatusUpdate r status snapshotPath error now else r)

/-- Uniqueness invariant of the queue: the deterministic id is a key. -/
def uniqueIds (table : List ScheduledJob) : Prop :=
  table.Pairwise (fun a b => a.id ≠ b.id)

/-! ## Orchestrator discovery (`src/core/OddsCollector.ts`, `discoverEvents`) -/

/-- Timing offset configuration (`TimingOffset` in `src/config/types`). -/
structure TimingConfig where
  name : String
  hoursBeforeKickoff : Int
  markets : String
deriving Repr

/-- Upcoming event as returned by `provider.fetchEvents`.  `commenceDate`
is the date part of the kickoff instant, what
`event.commenceTime.split('T')[0]` extracts from the ISO string. -/
structure OddsEvent where
  id : String
  homeTeam : String
  awayTeam : String
  commenceTime : Int
  commenceDate : String
deriving Repr

/-- League configuration: id, provider key and the optional injected
`normalizeTeamName` function. -/
structure LeagueConfig where
  id : String
  providerKey : String
  normalizeTeamName : Option (String → String)

/-- Team-name normalization at discovery time:
`league.normalizeTeamName ? league.normalizeTeamName(name) : name`. -/
def normName (league : LeagueConfig) (name : String) : String :=
  match league.normalizeTeamName with
  | some f => f name
  | none => name

/-- Job row the discovery loop inserts for one (event, timing) pair. -/
def discoveryJobRow (now : Int) (league : LeagueConfig) (event : OddsEvent)
    (home away : String) (timing : TimingConfig) (scheduledTime : Int) : ScheduledJob :=
  { id := generateJobId event.id timing.name
    leagueId := league.id
    eventId := event.id
    homeTeam := home
    awayTeam := away
    matchDate := event.commenceDate
    kickoffTime := event.commenceTime
    timingOffset := timing.name
    scheduledTime := scheduledTime
    status := JobStatus.pending
    attempts := 0
    lastAttempt := none
    snapshotPath := none
    error := none
    createdAt := now
    completedAt := none }

/-- Body of the innermost discovery loop for one timing offset: compute the
scheduled instant; skip when already past; skip when `getJob` finds the
deterministic id; otherwise insert the pending job.  The insert always
succeeds here because the `getJob` check just found the id absent. -/
def discoverTiming (now : Int) (league : LeagueConfig) (event : OddsEvent)
    (home away : String) (q : List ScheduledJob) (timing : TimingConfig) :
    List ScheduledJob :=
  let scheduledTime := calculateScheduledTime event.commenceTime timing.hoursBeforeKickoff
  if scheduledTime < now then q
  else
    match getJob q (generateJobId event.id timing.name) with
    | some _ => q
    | none => q ++ [discoveryJobRow now league event home away timing scheduledTime]

/-- Per-event discovery: normalize the team names once, then loop over the
configured timing offsets. -/
def discoverEvent (now : Int) (timings : List TimingConfig) (league : LeagueConfig)
    (q : List ScheduledJob) (event : OddsEvent) : List ScheduledJob :=
  timings.foldl
    (discoverTiming now league event (normName league event.homeTeam)
      (normName league event.awayTeam)) q

/-- Source `OddsCollector.discoverEvents` on an unchanged fixture list: for
each configured league the provider returns its fixture list and every
event is processed at every timing offset. -/
def discoverEvents (now : Int) (timings : List TimingConfig)
    (q : List ScheduledJob) (inputs : List (LeagueConfig × List OddsEvent)) :
    List ScheduledJob :=
  inputs.foldl (fun q li => li.2.foldl (discoverEvent now timings li.1) q) q

/-! ## Orchestrator execution (`src/core/OddsCollector.ts`, `executeJobs`) -/

/-- External effects one job execution performs, in code order: the job
queue updates (`scheduler.updateJobStatus`) and the bundle of
league-config lookup, timing-config lookup, provider fetch and snapshot
save, any of which may throw. -/
structure ExecEnv where
  updateJobStatus : String → JobStatus → Except String Unit
  fetchAndSave : ScheduledJob → Except String Unit

/-- Outcome the per-job try/catch settles on when it does not itself
throw. -/
inductive JobOutcome where
  | completed (snapshotPath : String)
  | failed (errMsg : String)
deriving DecidableEq, Repr

/-- Season string the orchestrator computes; an unparsable date yields the
JS template result `NaN-NaN`. -/
def seasonString (matchDate : String) : String :=
  (inferSeasonFromDate matchDate).getD "NaN-NaN"

/-- Snapshot path `executeJobs` records on the completed job row
(`generateSnapshotPath(job.leagueId, season, job.timingOffset,
job.matchDate, job.homeTeam, job.awayTeam, job.eventId)`). -/
def recordedSnapshotPath (job : ScheduledJob) : String :=
  generateSnapshotPath job.leagueId (seasonString job.matchDate) job.timingOffset
    job.matchDate job.homeTeam job.awayTeam job.eventId

/-- The try block of the per-job loop: mark running, resolve configuration
and fetch and save the snapshot, mark completed with the recorded path. -/
def execJobBody (env : ExecEnv) (job : ScheduledJob) : Except String String := do
  let _ ← env.updateJobStatus job.id JobStatus.running
  let _ ← env.fetchAndSave job
  let snapshotPath := recordedSnapshotPath job
  let _ ← env.updateJobStatus job.id JobStatus.completed
  pure snapshotPath

/-- One iteration of the per-job loop: the try body with its catch block.
The catch block marks the job failed — and that `updateJobStatus` call is
itself unprotected, so its failure escapes the loop. -/
def execJob (env : ExecEnv) (job : ScheduledJob) : Except String JobOutcome :=
  match execJobBody env job with
  | Except.ok path => Except.ok (JobOutcome.completed path)
  | Except.error msg =>
    match env.updateJobStatus job.id JobStatus.failed with
    | Except.ok _ => Except.ok (JobOutcome.failed msg)
    | Except.error e => Except.error e

/-- Source `executeJobs` over a batch of due jobs: sequential processing,
aborting only when an exception escapes the per-job try/catch. -/
def executeJobs (env : ExecEnv) (dueJobs : List ScheduledJob) :
    Except String (List JobOutcome) :=
  match dueJobs with
  | [] => Except.ok []
  | job :: rest =>
    match execJob env job with
    | Except.ok outcome => (executeJobs env rest).map (fun outs => outcome :: outs)
    | Except.error e => Except.error e

/-! ## Index builder (`src/core/IndexBuilder.ts`) -/

/-- Entry of the match index (`MatchIndexEntry`): `snapshots` is the
timing-name → snapshot-path object, in insertion order. -/
structure MatchIndexEntry where
  homeTeam : String
  awayTeam : String
  matchDate : String
  eventId : String
  snapshots : List (String × String)
  kickoffTime : Int
deriving DecidableEq, Repr

/-- Match index artifact (`MatchIndex`), `matches` keyed by match key. -/
structure MatchIndex where
  version : String
  leagueId : String
  season : String
  lastUpdated : Int
  «matches» : List (String × MatchIndexEntry)
deriving DecidableEq, Repr

/-- One element of the `snapshots` argument of `updateMatchIndex`. -/
structure SnapshotDescriptor where
  homeTeam : String
  awayTeam : String
  matchDate : String
  eventId : String
  timing : String
  path : String
  kickoffTime : Int
deriving DecidableEq, Repr

/-- Lookup in a JS object modelled as an association list. -/
def lookupKey {β : Type} (m : List (String × β)) (k : String) : Option β :=
  (m.find? (fun p => p.1 == k)).map Prod.snd

/-- Assignment `obj[k] = v` on a JS object: overwrite in place when the key
exists, append when it does not. -/
def setAssoc {β : Type} (k : String) (v : β) : List (String × β) → List (String × β)
  | [] => [(k, v)]
  | p :: rest => if p.1 == k then (p.1, v) :: rest else p :: setAssoc k v rest

/-- Body of the descriptor loop in `updateMatchIndex`: create the entry on
first sight, then `entry.snapshots[snapshot.timing] = snapshot.path`. -/
def applyDescriptor (ms : List (String × MatchIndexEntry)) (d : SnapshotDescriptor) :
    List (String × MatchIndexEntry) :=
  let matchKey := generateMatchKey d.homeTeam d.awayTeam d.matchDate
  let entry :=
    match lookupKey ms matchKey with
    | some e => e
    | none =>
      { homeTeam := d.homeTeam
        awayTeam := d.awayTeam
        matchDate := d.matchDate
        eventId := d.eventId
        snapshots := []
        kickoffTime := d.kickoffTime }
  setAssoc matchKey { entry with snapshots := setAssoc d.timing d.path entry.snapshots } ms

/-- Source `IndexBuilder.updateMatchIndex`: load-or-create the index, merge
the descriptor batch into `matches`, refresh `lastUpdated`, save. -/
def updateMatchIndex (existing : Option MatchIndex) (leagueId season : String)
    (snapshots : List SnapshotDescriptor) (now : Int) : MatchIndex :=
  let index :=
    match existing with
    | some i => i
    | none =>
      { version := "1.0", leagueId := leagueId, season := season,
        lastUpdated := now, «matches» := [] }
  { index with
    «matches» := snapshots.foldl applyDescriptor index.«matches»
    lastUpdated := now }

/-- Entry of the date index: match count, match keys, and the sorted union
of timing offsets available across those matches. -/
structure DateIndexEntry where
  matchCount : Nat
  «matches» : List String
  snapshotTimingsAvailable : List String
deriving DecidableEq, Repr

/-- Date index artifact written at `by_date`. -/
structure DateIndex where
  version : String
  leagueId : String
  season : String
  lastUpdated : Int
  dates : List (String × DateIndexEntry)
deriving DecidableEq, Repr

/-- Entry of the team index: match count and match keys for one team. -/
structure TeamIndexEntry where
  matchCount : Nat
  «matches» : List String
deriving DecidableEq, Repr

/-- Team index artifact written at `by_team`. -/
structure TeamIndex where
  version : String
  leagueId : String
  season : String
  lastUpdated : Int
  teams : List (String × TeamIndexEntry)
deriving DecidableEq, Repr

/-- Push `dateMap[k].push(v)`, creating the list on first sight — the JS
grouping idiom used by both derived-index builders. -/
def pushAssoc (k v : String) : List (String × List String) → List (String × List String)
  | [] => [(k, [v])]
  | p :: rest => if p.1 == k then (p.1, p.2 ++ [v]) :: rest else p :: pushAssoc k v rest

/-- Grouping loop of `buildDateIndex`: match keys grouped by
`entry.matchDate`, in first-sight order. -/
def dateGroups (m : MatchIndex) : List (String × List String) :=
  m.«matches».foldl (fun acc p => pushAssoc p.2.matchDate p.1 acc) []

/-- String order used by the JS default `Array.prototype.sort`. -/
def stringLe (a b : String) : Prop := a ≤ b

instance : DecidableRel stringLe :=
  fun a b => inferInstanceAs (Decidable (a ≤ b))

/-- Source `IndexBuilder.getAvailableTimings`: collect the timing names of
the listed matches into a `Set` (first-insertion order, deduplicated) and
sort the result. -/
def getAvailableTimings (m : MatchIndex) (matchKeys : List String) : List String :=
  let collected := matchKeys.foldl
    (fun acc k =>
      match lookupKey m.«matches» k with
      | some e => e.snapshots.foldl
          (fun acc2 p => if p.1 ∈ acc2 then acc2 else acc2 ++ [p.1]) acc
      | none => acc) []
  collected.insertionSort stringLe

/-- Source `IndexBuilder.buildDateIndex` on the loaded match index (`none`
models the missing-index early return, in which case nothing is saved). -/
def buildDateIndex (leagueId season : String) (matchIndex : Option MatchIndex)
    (now : Int) : Option DateIndex :=
  matchIndex.map fun m =>
    { version := "1.0"
      leagueId := leagueId
      season := season
      lastUpdated := now
      dates := (dateGroups m).map fun p =>
        (p.1,
          { matchCount := p.2.length
            «matches» := p.2
            snapshotTimingsAvailable := getAvailableTimings m p.2 }) }

/-- Grouping loop of `buildTeamIndex`: each match contributes its key under
the formatted home team, then under the formatted away team. -/
def teamGroups (m : MatchIndex) : List (String × List String) :=
  m.«matches».foldl
    (fun acc p =>
      pushAssoc (formatTeamNameForPath p.2.awayTeam) p.1
        (pushAssoc (formatTeamNameForPath p.2.homeTeam) p.1 acc)) []

/-- Source `IndexBuilder.buildTeamIndex` on the loaded match index. -/
def buildTeamIndex (leagueId season : String) (matchIndex : Option MatchIndex)
    (now : Int) : Option TeamIndex :=
  matchIndex.map fun m =>
    { version := "1.0"
      leagueId := leagueId
      season := season
      lastUpdated := now
      teams := (teamGroups m).map fun p =>
        (p.1, { matchCount := p.2.length, «matches» := p.2 }) }

/-- Source `IndexBuilder.buildAllIndexes`: build the date index, then the
team index, both from the same loaded match index. -/
def buildAllIndexes (leagueId season : String) (matchIndex : Option MatchIndex)
    (now : Int) : Option DateIndex × Option TeamIndex :=
  (buildDateIndex leagueId season matchIndex now,
   buildTeamIndex leagueId season matchIndex now)

/-- Every field of a date index artifact except `lastUpdated`. -/
def DateIndex.stripTimestamp (d : DateIndex) :
    String × String × String × List (String × DateIndexEntry) :=
  (d.version, d.leagueId, d.season, d.dates)

/-- Every field of a team index artifact except `lastUpdated`. -/
def TeamIndex.stripTimestamp (t : TeamIndex) :
    String × String × String × List (String × TeamIndexEntry) :=
  (t.version, t.leagueId, t.season, t.teams)

/-! ## Sample values used by witnesses and counterexamples -/

/-- Concrete job row as executed by the orchestrator in the examples. -/
def sampleExecJob : ScheduledJob :=
  { id := "abc123def456_opening"
    leagueId := "england_premier_league"
    eventId := "abc123def456"
    homeTeam := "Arsenal FC"
    awayTeam := "Chelsea FC"
    matchDate := "2025-09-01"
    kickoffTime := 1756738800000
    timingOffset := "opening"
    scheduledTime := 1756134000000
    status := JobStatus.pending
    attempts := 0
    lastAttempt := none
    snapshotPath := none
    error := none
    createdAt := 0
    completedAt := none }

/-- Snapshot `executeJobs` constructs for `sampleExecJob`: metadata copied
from the job fields, `odds.id` the provider event id. -/
def sampleExecSnapshot : OddsSnapshot :=
  { metadata :=
      { timestamp := 1756134000000
        date := "2025-09-01"
        league := "england_premier_league"
        season := "2025-2026"
        snapshotTiming := "opening"
        eventId := "abc123def456"
        kickoffTime := 1756738800000 }
    oddsEventId := "abc123def456" }

/-- Concrete insert argument with the deterministic id `evt1_opening`. -/
def sampleNewJob : NewJob :=
  { id := "evt1_opening"
    leagueId := "epl"
    eventId := "evt1"
    homeTeam := "Arsenal FC"
    awayTeam := "Chelsea FC"
    matchDate := "2025-09-01"
    kickoffTime := 100
    timingOffset := "opening"
    scheduledTime := 50 }

/-- Second concrete insert argument, different deterministic id. -/
def sampleNewJob2 : NewJob :=
  { id := "evt1_closing"
    leagueId := "epl"
    eventId := "evt1"
    homeTeam := "Arsenal FC"
    awayTeam := "Chelsea FC"
    matchDate := "2025-09-01"
    kickoffTime := 100
    timingOffset := "closing"
    scheduledTime := 90 }

/-- Concrete pending job due at instant 1. -/
def sampleDueJob1 : ScheduledJob :=
  { insertedRow sampleNewJob 0 with id := "evt1_a", scheduledTime := 1 }

/-- Concrete pending job due at instant 2. -/
def sampleDueJob2 : ScheduledJob :=
  { insertedRow sampleNewJob 0 with id := "evt1_b", scheduledTime := 2 }

/-- Concrete pending job due at instant 3. -/
def sampleDueJob3 : ScheduledJob :=
  { insertedRow sampleNewJob 0 with id := "evt1_c", scheduledTime := 3 }

/-! ## C9 — season inference -/

/-- C9: `inferSeasonFromDate` follows the fixed European convention — for
every parseable match date, month ≥ 8 yields `{year}-{year+1}` and
month < 8 yields `{year-1}-{year}`; in particular `2025-07-15` infers
`2024-2025` and `2025-09-01` infers `2025-2026`. -/
theorem inferSeasonFromDate_convention (matchDate : String) (y m : Nat)
    (h : parseYearMonth matchDate = some (y, m)) :
    inferSeasonFromDate matchDate =
      some (if m ≥ 8 then toString y ++ "-" ++ toString (y + 1)
            else toString (y - 1) ++ "-" ++ toString y) ∧
    inferSeasonFromDate "2025-07-15" = some "2024-2025" ∧
    inferSeasonFromDate "2025-09-01" = some "2025-2026" := by
  refine ⟨?_, by decide, by decide⟩
  simp [inferSeasonFromDate, h]

/-- Witness for C9 at the concrete date 2025-09-01. -/
theorem inferSeasonFromDate_convention_witness :
    inferSeasonFromDate "2025-09-01" =
      some (if 9 ≥ 8 then toString 2025 ++ "-" ++ toString (2025 + 1)
            else toString (2025 - 1) ++ "-" ++ toString 2025) :=
  (inferSeasonFromDate_convention "2025-09-01" 2025 9 (by decide)).1

/-! ## C5 — snapshot key layout versus the recorded job path -/

/-- C5 (code bug): the Snapshot Store writes `sampleExecJob`'s snapshot at
the spec's key `leagues/{leagueId}/{season}/{fixtureId}_{offsetName}_{matchDate}.json`,
but `executeJobs` records a different, legacy-format path on the completed
job row, so the recorded location does not round-trip to the stored
artifact. -/
theorem snapshotPath_roundTrip_bug :
    saveSnapshotKey "" sampleExecJob.leagueId (seasonString sampleExecJob.matchDate)
        sampleExecSnapshot
      = "leagues/england_premier_league/2025-2026/abc123def456_opening_2025-09-01.json" ∧
    recordedSnapshotPath sampleExecJob
      = "england_premier_league/2025-2026/snapshots/opening/2025-09-01/Arsenal_FC_vs_Chelsea_FC_abc123d.json" ∧
    saveSnapshotKey "" sampleExecJob.leagueId (seasonString sampleExecJob.matchDate)
        sampleExecSnapshot
      ≠ recordedSnapshotPath sampleExecJob := by
  refine ⟨by decide, by decide, by decide⟩

/-! ## C3 — updateJobStatus bookkeeping -/

/-- C3: for every existing job row matched by the UPDATE, `updateJobStatus`
increments `attempts` by exactly one, stamps `last_attempt` with the
current time, stamps `completed_at` exactly on the terminal statuses
(otherwise leaving it unchanged), and preserves the stored snapshot
location when no new one is supplied. -/
theorem updateJobStatus_bookkeeping (table : List ScheduledJob) (jobId : String)
    (status : JobStatus) (snapshotPath err : Option String) (now : Int) :
    ∀ r ∈ table, r.id = jobId →
      applyStatusUpdate r status snapshotPath err now ∈
        updateJobStatus table jobId status snapshotPath err now ∧
      (applyStatusUpdate r status snapshotPath err now).attempts = r.attempts + 1 ∧
      (applyStatusUpdate r status snapshotPath err now).lastAttempt = some now ∧
      (applyStatusUpdate r status snapshotPath err now).completedAt =
        (if status = JobStatus.completed ∨ status = JobStatus.failed then some now
         else r.completedAt) ∧
      (snapshotPath = none →
        (applyStatusUpdate r status snapshotPath err now).snapshotPath = r.snapshotPath) := by
  intro r hr hid
  refine ⟨?_, rfl, rfl, rfl, ?_⟩
  · have heq : (fun x => if x.id == jobId then applyStatusUpdate x status snapshotPath err now
        else x) r = applyStatusUpdate r status snapshotPath err now := by
      simp [hid]
    exact heq ▸ List.mem_map_of_mem _ hr
  · intro hnone
    subst hnone
    simp [applyStatusUpdate, jsStringOrNull, sqlCoalesce]

/-- Witness for C3: a concrete completed update on a one-row table. -/
theorem updateJobStatus_bookkeeping_witness :
    applyStatusUpdate sampleDueJob1 JobStatus.completed none none 7 ∈
      updateJobStatus [sampleDueJob1] "evt1_a" JobStatus.completed none none 7 ∧
    (applyStatusUpdate sampleDueJob1 JobStatus.completed none none 7).attempts =
      sampleDueJob1.attempts + 1 ∧
    (applyStatusUpdate sampleDueJob1 JobStatus.completed none none 7).lastAttempt = some 7 ∧
    (applyStatusUpdate sampleDueJob1 JobStatus.completed none none 7).completedAt =
      (if JobStatus.completed = JobStatus.completed ∨ JobStatus.completed = JobStatus.failed
       then some 7 else sampleDueJob1.completedAt) ∧
    ((none : Option String) = none →
      (applyStatusUpdate sampleDueJob1 JobStatus.completed none none 7).snapshotPath =
        sampleDueJob1.snapshotPath) :=
  updateJobStatus_bookkeeping [sampleDueJob1] "evt1_a" JobStatus.completed none none 7
    sampleDueJob1 (List.mem_cons_self _ _) (by decide)

/-! ## C10 — updateJobStatus error overwrite and untouched columns -/

/-- C10: `updateJobStatus` unconditionally overwrites the `error` column
with the (JS-coerced) supplied error, in particular erasing a previously
recorded error when none is supplied, while the snapshot location is
preserved; the identity and scheduling columns of the row, and every row
with a different id, are left unchanged. -/
theorem updateJobStatus_error_overwrite (table : List ScheduledJob) (jobId : String)
    (status : JobStatus) (snapshotPath err : Option String) (now : Int) :
    ∀ r ∈ table, r.id = jobId →
      (applyStatusUpdate r status snapshotPath err now).error = jsStringOrNull err ∧
      (err = none → (applyStatusUpdate r status snapshotPath err now).error = none) ∧
      (snapshotPath = none →
        (applyStatusUpdate r status snapshotPath err now).snapshotPath = r.snapshotPath) ∧
      (applyStatusUpdate r status snapshotPath err now).id = r.id ∧
      (applyStatusUpdate r status snapshotPath err now).leagueId = r.leagueId ∧
      (applyStatusUpdate r status snapshotPath err now).eventId = r.eventId ∧
      (applyStatusUpdate r status snapshotPath err now).homeTeam = r.homeTeam ∧
      (applyStatusUpdate r status snapshotPath err now).awayTeam = r.awayTeam ∧
      (applyStatusUpdate r status snapshotPath err now).matchDate = r.matchDate ∧
      (applyStatusUpdate r status snapshotPath err now).kickoffTime = r.kickoffTime ∧
      (applyStatusUpdate r status snapshotPath err now).timingOffset = r.timingOffset ∧
      (applyStatusUpdate r status snapshotPath err now).scheduledTime = r.scheduledTime ∧
      (applyStatusUpdate r status snapshotPath err now).createdAt = r.createdAt ∧
      (∀ s ∈ table, s.id ≠ jobId →
        s ∈ updateJobStatus table jobId status snapshotPath err now) := by
  intro r hr hid
  refine ⟨rfl, ?_, ?_, rfl, rfl, rfl, rfl, rfl, rfl, rfl, rfl, rfl, rfl, ?_⟩
  · intro hnone
    subst hnone
    rfl
  · intro hnone
    subst hnone
    simp [applyStatusUpdate, jsStringOrNull, sqlCoalesce]
  · intro s hs hne
    have heq : (fun x => if x.id == jobId then applyStatusUpdate x status snapshotPath err now
        else x) s = s := by
      simp [hne]
    exact heq ▸ List.mem_map_of_mem _ hs

/-- Witness for C10: a running update with no error argument erases the
previously recorded error text on a concrete row. -/
theorem updateJobStatus_error_overwrite_witness :
    (applyStatusUpdate { sampleDueJob1 with error := some "boom" } JobStatus.running
        none none 9).error = jsStringOrNull none ∧
    ((none : Option String) = none →
      (applyStatusUpdate { sampleDueJob1 with error := some "boom" } JobStatus.running
        none none 9).error = none) :=
  let r := { sampleDueJob1 with error := some "boom" }
  let h := updateJobStatus_error_overwrite [r] r.id JobStatus.running none none 9 r
    (List.mem_cons_self _ _) rfl
  ⟨h.1, h.2.1⟩

/-! ## C2 — scheduleJob is a plain insert, not insert-or-noop -/

/-- C2 counterexample: calling `scheduleJob` with an id that already exists
as a row raises the UNIQUE-constraint error instead of being a no-op. -/
theorem scheduleJob_insert_or_noop_counterexample :
    scheduleJob [insertedRow sampleNewJob 0] sampleNewJob 1 =
      Except.error "UNIQUE constraint failed: scheduled_jobs.id" := rfl

/-- C2 amended: `scheduleJob` is a plain INSERT keyed by the deterministic
id — on an existing id it raises the uniqueness error (rejecting the
duplicate, so the at-most-one-row-per-id invariant is maintained), and a
successful insert preserves id-uniqueness of the table. -/
theorem scheduleJob_plain_insert_unique (table : List ScheduledJob) (job : NewJob)
    (now : Int) :
    ((∃ r ∈ table, r.id = job.id) →
      scheduleJob table job now =
        Except.error "UNIQUE constraint failed: scheduled_jobs.id") ∧
    (∀ table', scheduleJob table job now = Except.ok table' →
      uniqueIds table → uniqueIds table') := by
  constructor
  · rintro ⟨r, hr, hid⟩
    have hany : table.any (fun r => r.id == job.id) = true :=
      List.any_eq_true.mpr ⟨r, hr, by simp [hid]⟩
    simp [scheduleJob, hany]
  · intro table' h hU
    by_cases hany : table.any (fun r => r.id == job.id) = true
    · simp [scheduleJob, hany] at h
    · have hnone : ∀ r ∈ table, r.id ≠ job.id := by
        intro r hr hid
        exact hany (List.any_eq_true.mpr ⟨r, hr, by simp [hid]⟩)
      have hok : table' = table ++ [insertedRow job now] := by
        simpa [scheduleJob, hany] using h.symm
      subst hok
      exact List.pairwise_append.mpr
        ⟨hU, List.pairwise_singleton _ _,
          fun a ha b hb => by
            have : b = insertedRow job now := List.mem_singleton.mp hb
            subst this
            exact hnone a ha⟩

/-- Witness for C2: both conjuncts at concrete inputs — the duplicate id is
rejected, and a successful insert of a fresh id keeps ids unique. -/
theorem scheduleJob_plain_insert_unique_witness :
    scheduleJob [insertedRow sampleNewJob 0] sampleNewJob 1 =
      Except.error "UNIQUE constraint failed: scheduled_jobs.id" ∧
    uniqueIds [insertedRow sampleNewJob 0, insertedRow sampleNewJob2 1] :=
  ⟨(scheduleJob_plain_insert_unique [insertedRow sampleNewJob 0] sampleNewJob 1).1
      ⟨insertedRow sampleNewJob 0, List.mem_cons_self _ _, rfl⟩,
    (scheduleJob_plain_insert_unique [insertedRow sampleNewJob 0] sampleNewJob2 1).2
      [insertedRow sampleNewJob 0, insertedRow sampleNewJob2 1] rfl
      (List.pairwise_singleton _ _)⟩

/-! ## C8 — updateMatchIndex is incremental -/

/-- Assignment at one key leaves lookups at every other key unchanged. -/
theorem lookupKey_setAssoc_ne {β : Type} (k' k : String) (v : β) (m : List (String × β))
    (h : k' ≠ k) : lookupKey (setAssoc k' v m) k = lookupKey m k := by
  induction m with
  | nil => simp [setAssoc, lookupKey, h]
  | cons p rest ih =>
    by_cases hp : p.1 == k'
    · have : p.1 ≠ k := by
        intro hk
        exact h (by rw [← hk]; exact (eq_of_beq hp).symm)
      simp [setAssoc, lookupKey, hp, this, List.find?_cons]
    · by_cases hk : p.1 == k
      · simp [setAssoc, lookupKey, hp, hk, List.find?_cons]
      · simpa [setAssoc, lookupKey, hp, hk, List.find?_cons] using ih

/-- Merging one descriptor leaves lookups at every unmentioned match key
unchanged. -/
theorem lookupKey_applyDescriptor_ne (ms : List (String × MatchIndexEntry))
    (d : SnapshotDescriptor) (k : String)
    (h : generateMatchKey d.homeTeam d.awayTeam d.matchDate ≠ k) :
    lookupKey (applyDescriptor ms d) k = lookupKey ms k := by
  unfold applyDescriptor
  exact lookupKey_setAssoc_ne _ _ _ _ h

/-- Folding a whole descriptor batch leaves lookups at every unmentioned
match key unchanged. -/
theorem lookupKey_foldl_applyDescriptor_ne (batch : List SnapshotDescriptor)
    (ms : List (String × MatchIndexEntry)) (k : String)
    (h : ∀ d ∈ batch, generateMatchKey d.homeTeam d.awayTeam d.matchDate ≠ k) :
    lookupKey (batch.foldl applyDescriptor ms) k = lookupKey ms k := by
  induction batch generalizing ms with
  | nil => rfl
  | cons d batch ih =>
    rw [List.foldl_cons,
      ih (applyDescriptor ms d) (fun x hx => h x (List.mem_cons_of_mem _ hx)),
      lookupKey_applyDescriptor_ne ms d k (h d (List.mem_cons_self _ _))]

/-- C8: `updateMatchIndex` is incremental — every entry of the existing
index whose match key is not mentioned in the descriptor batch is looked up
unchanged in the saved index, and of the artifact's top-level fields only
`lastUpdated` is refreshed. -/
theorem updateMatchIndex_incremental (existing : MatchIndex) (leagueId season : String)
    (batch : List SnapshotDescriptor) (now : Int) (k : String)
    (hk : ∀ d ∈ batch, generateMatchKey d.homeTeam d.awayTeam d.matchDate ≠ k) :
    lookupKey (updateMatchIndex (some existing) leagueId season batch now).«matches» k
      = lookupKey existing.«matches» k ∧
    (updateMatchIndex (some existing) leagueId season batch now).version =
      existing.version ∧
    (updateMatchIndex (some existing) leagueId season batch now).leagueId =
      existing.leagueId ∧
    (updateMatchIndex (some existing) leagueId season batch now).season =
      existing.season ∧
    (updateMatchIndex (some existing) leagueId season batch now).lastUpdated = now := by
  refine ⟨?_, rfl, rfl, rfl, rfl⟩
  exact lookupKey_foldl_applyDescriptor_ne batch existing.«matches» k hk

/-- Concrete match index with one Arsenal–Chelsea entry. -/
def sampleEntry : MatchIndexEntry :=
  { homeTeam := "Arsenal FC"
    awayTeam := "Chelsea FC"
    matchDate := "2025-09-01"
    eventId := "abc123def456"
    snapshots := [("opening", "p1")]
    kickoffTime := 1756738800000 }

/-- Concrete match index holding `sampleEntry`. -/
def sampleIndex : MatchIndex :=
  { version := "1.0"
    leagueId := "england_premier_league"
    season := "2025-2026"
    lastUpdated := 0
    «matches» := [("Arsenal_FC_Chelsea_FC_2025-09-01", sampleEntry)] }

/-- Concrete descriptor batch mentioning a different match. -/
def sampleDescriptor : SnapshotDescriptor :=
  { homeTeam := "Liverpool FC"
    awayTeam := "Everton FC"
    matchDate := "2025-09-02"
    eventId := "xyz789"
    timing := "closing"
    path := "p2"
    kickoffTime := 1756825200000 }

/-- Witness for C8: merging a batch about Liverpool–Everton leaves the
Arsenal–Chelsea entry untouched. -/
theorem updateMatchIndex_incremental_witness :
    lookupKey (updateMatchIndex (some sampleIndex) "england_premier_league" "2025-2026"
        [sampleDescriptor] 99).«matches» "Arsenal_FC_Chelsea_FC_2025-09-01"
      = lookupKey sampleIndex.«matches» "Arsenal_FC_Chelsea_FC_2025-09-01" ∧
    (updateMatchIndex (some sampleIndex) "england_premier_league" "2025-2026"
        [sampleDescriptor] 99).version = sampleIndex.version ∧
    (updateMatchIndex (some sampleIndex) "england_premier_league" "2025-2026"
        [sampleDescriptor] 99).leagueId = sampleIndex.leagueId ∧
    (updateMatchIndex (some sampleIndex) "england_premier_league" "2025-2026"
        [sampleDescriptor] 99).season = sampleIndex.season ∧
    (updateMatchIndex (some sampleIndex) "england_premier_league" "2025-2026"
        [sampleDescriptor] 99).lastUpdated = 99 :=
  updateMatchIndex_incremental sampleIndex "england_premier_league" "2025-2026"
    [sampleDescriptor] 99 "Arsenal_FC_Chelsea_FC_2025-09-01" (by decide)

/-! ## C6 — buildAllIndexes idempotence is only up to the timestamp -/

/-- Concrete (empty) match index for the C6 counterexample. -/
def sampleEmptyIndex : MatchIndex :=
  { version := "1.0"
    leagueId := "epl"
    season := "2025-2026"
    lastUpdated := 0
    «matches» := [] }

/-- C6 counterexample: two `buildAllIndexes` runs over the unchanged match
index at different instants produce artifacts that are not byte-identical —
each embeds its own `lastUpdated` build timestamp. -/
theorem buildAllIndexes_byte_identical_counterexample :
    buildAllIndexes "epl" "2025-2026" (some sampleEmptyIndex) 0 ≠
      buildAllIndexes "epl" "2025-2026" (some sampleEmptyIndex) 1 := by
  decide

/-- C6 amended: two `buildAllIndexes` runs over the unchanged match index
agree on every field of the date and team artifacts except `lastUpdated` —
byte-identical exactly when the two runs observe the same clock reading. -/
theorem buildAllIndexes_idempotent_mod_timestamp (leagueId season : String)
    (matchIndex : Option MatchIndex) (t1 t2 : Int) :
    (buildAllIndexes leagueId season matchIndex t1).1.map DateIndex.stripTimestamp =
      (buildAllIndexes leagueId season matchIndex t2).1.map DateIndex.stripTimestamp ∧
    (buildAllIndexes leagueId season matchIndex t1).2.map TeamIndex.stripTimestamp =
      (buildAllIndexes leagueId season matchIndex t2).2.map TeamIndex.stripTimestamp := by
  cases matchIndex <;>
    simp [buildAllIndexes, buildDateIndex, buildTeamIndex, DateIndex.stripTimestamp,
      TeamIndex.stripTimestamp]

/-! ## C7 — per-job error isolation in executeJobs -/

/-- Environment in which every queue update fails only for the `failed`
status (the mark-failed UPDATE raises), while the provider fetch itself
throws, steering execution into the catch block. -/
def failedUpdateEnv : ExecEnv :=
  { updateJobStatus := fun _ s =>
      if s = JobStatus.failed then Except.error "D1 update failed" else Except.ok ()
    fetchAndSave := fun _ => Except.error "provider timeout" }

/-- Environment in which every external operation succeeds. -/
def okEnv : ExecEnv :=
  { updateJobStatus := fun _ _ => Except.ok ()
    fetchAndSave := fun _ => Except.ok () }

/-- C7 counterexample: when the single `updateJobStatus(id, 'failed', …)`
call of the first job's catch block raises, the exception escapes the
per-job try/catch and the batch aborts — the second due job is never
processed, refuting the claim that any raising queue update leaves the
remaining jobs processed. -/
theorem executeJobs_update_failure_counterexample :
    executeJobs failedUpdateEnv [sampleDueJob1, sampleDueJob2] =
      Except.error "D1 update failed" := rfl

/-- C7 amended: the queue updates inside the try body (mark running, mark
completed) are caught by the per-job handler, so as long as the mark-failed
update of the catch block itself does not raise, every job of the batch is
processed to an outcome no matter which other operations raise. -/
theorem executeJobs_isolates_failures (env : ExecEnv) (jobs : List ScheduledJob)
    (h : ∀ id, env.updateJobStatus id JobStatus.failed = Except.ok ()) :
    ∃ outs, executeJobs env jobs = Except.ok outs ∧ outs.length = jobs.length := by
  induction jobs with
  | nil => exact ⟨[], rfl, rfl⟩
  | cons job rest ih =>
    obtain ⟨outs, hok, hlen⟩ := ih
    cases hbody : execJobBody env job with
    | ok path =>
      exact ⟨JobOutcome.completed path :: outs,
        by simp [executeJobs, execJob, hbody, hok, Except.map], by simp [hlen]⟩
    | error msg =>
      exact ⟨JobOutcome.failed msg :: outs,
        by simp [executeJobs, execJob, hbody, h, hok, Except.map], by simp [hlen]⟩

/-- Witness for C7's amended statement: a two-job batch in the all-ok
environment yields one outcome per job. -/
theorem executeJobs_isolates_failures_witness :
    ∃ outs, executeJobs okEnv [sampleDueJob1, sampleDueJob2] = Except.ok outs ∧
      outs.length = [sampleDueJob1, sampleDueJob2].length :=
  executeJobs_isolates_failures okEnv [sampleDueJob1, sampleDueJob2] (fun _ => rfl)

/-! ## C4 — due-job retrieval: pending only, due only, ascending, bounded -/

/-- C4: `getJobsDueWithin` returns only pending jobs due within the window,
sorted ascending by scheduled time and capped at the limit; in particular a
queue of three pending jobs with scheduled times T1 < T2 < T3, all due, is
returned in exactly that order. -/
theorem getJobsDueWithin_ordering (table : List ScheduledJob) (now minutes : Int)
    (maxJobs : Nat) :
    (∀ j ∈ getJobsDueWithin table now minutes maxJobs,
      j.status = JobStatus.pending ∧ j.scheduledTime ≤ now + minutes * 60000) ∧
    List.Sorted byScheduledTime (getJobsDueWithin table now minutes maxJobs) ∧
    (getJobsDueWithin table now minutes maxJobs).length ≤ maxJobs ∧
    (∀ j1 j2 j3 : ScheduledJob,
      j1.status = JobStatus.pending → j2.status = JobStatus.pending →
      j3.status = JobStatus.pending →
      j1.scheduledTime < j2.scheduledTime → j2.scheduledTime < j3.scheduledTime →
      j3.scheduledTime ≤ now + minutes * 60000 → 3 ≤ maxJobs →
      getJobsDueWithin [j1, j2, j3] now minutes maxJobs = [j1, j2, j3]) := by
  refine ⟨?_, ?_, ?_, ?_⟩
  · intro j hj
    have hmem : j ∈ (table.filter (isDueWithin now minutes)).insertionSort byScheduledTime :=
      List.mem_of_mem_take hj
    have hfil : j ∈ table.filter (isDueWithin now minutes) :=
      (List.mem_insertionSort byScheduledTime).mp hmem
    have hpred := (List.mem_filter.mp hfil).2
    simpa [isDueWithin] using hpred
  · exact List.Pairwise.sublist (List.take_sublist _ _)
      (List.sorted_insertionSort byScheduledTime _)
  · simp only [getJobsDueWithin, List.length_take]
    exact min_le_left _ _
  · intro j1 j2 j3 h1 h2 h3 lt12 lt23 due3 hmax
    have due2 : j2.scheduledTime ≤ now + minutes * 60000 := le_of_lt (lt_of_lt_of_le lt23 due3)
    have due1 : j1.scheduledTime ≤ now + minutes * 60000 := le_of_lt (lt_of_lt_of_le lt12 due2)
    have hfil : List.filter (isDueWithin now minutes) [j1, j2, j3] = [j1, j2, j3] := by
      simp [isDueWithin, h1, h2, h3, due1, due2, due3]
    have hsorted : List.Sorted byScheduledTime [j1, j2, j3] := by
      simp only [List.sorted_cons, List.mem_cons, List.mem_singleton]
      refine ⟨?_, ?_, ?_⟩
      · rintro b (rfl | rfl | h)
        · exact le_of_lt lt12
        · exact le_of_lt (lt_trans lt12 lt23)
        · cases h
      · rintro b (rfl | h)
        · exact le_of_lt lt23
        · cases h
      · simp [List.Sorted]
    rw [getJobsDueWithin, hfil, List.Sorted.insertionSort_eq hsorted,
      List.take_of_length_le (by simpa using hmax)]

/-- Witness for C4's ordering instance at three concrete due jobs. -/
theorem getJobsDueWithin_ordering_witness :
    getJobsDueWithin [sampleDueJob1, sampleDueJob2, sampleDueJob3] 0 5 100 =
      [sampleDueJob1, sampleDueJob2, sampleDueJob3] :=
  (getJobsDueWithin_ordering [] 0 5 100).2.2.2 sampleDueJob1 sampleDueJob2 sampleDueJob3
    rfl rfl rfl (by decide) (by decide) (by decide) (by decide)

/-! ## C1 — discovery is idempotent

Generic facts about folding an append-only, self-settling step over a work
list, instantiated at the three nested discovery loops (timing offsets,
events, leagues). -/

section FoldSettled

variable {β : Type}
variable (f : List ScheduledJob → β → List ScheduledJob)
variable (Sett : List ScheduledJob → β → Prop)

/-- Folding an append-only step only ever appends. -/
theorem foldl_appendOnly (hApp : ∀ q b, ∃ s, f q b = q ++ s) :
    ∀ (l : List β) (q : List ScheduledJob), ∃ s, l.foldl f q = q ++ s := by
  intro l
  induction l with
  | nil => exact fun q => ⟨[], by simp⟩
  | cons b l ih =>
    intro q
    obtain ⟨s1, h1⟩ := hApp q b
    obtain ⟨s2, h2⟩ := ih (f q b)
    exact ⟨s1 ++ s2, by rw [List.foldl_cons, h2, h1, List.append_assoc]⟩

/-- Settledness that is preserved by appending is preserved by the fold. -/
theorem sett_foldl (hApp : ∀ q b, ∃ s, f q b = q ++ s)
    (hMono : ∀ q s b, Sett q b → Sett (q ++ s) b) :
    ∀ (l : List β) (q : List ScheduledJob) (b : β), Sett q b → Sett (l.foldl f q) b := by
  intro l
  induction l with
  | nil => exact fun q b h => h
  | cons x l ih =>
    intro q b h
    obtain ⟨s, hs⟩ := hApp q x
    exact ih (f q x) b (hs ▸ hMono q s b h)

/-- After the fold, every processed item is settled. -/
theorem foldl_settles (hApp : ∀ q b, ∃ s, f q b = q ++ s)
    (hMono : ∀ q s b, Sett q b → Sett (q ++ s) b)
    (hSettles : ∀ q b, Sett (f q b) b) :
    ∀ (l : List β) (q : List ScheduledJob), ∀ b ∈ l, Sett (l.foldl f q) b := by
  intro l
  induction l with
  | nil => intro q b hb; cases hb
  | cons x l ih =>
    intro q b hb
    rcases List.mem_cons.mp hb with rfl | hb
    · exact sett_foldl f Sett hApp hMono l (f q b) b (hSettles q b)
    · exact ih (f q x) b hb

/-- Folding over a fully settled work list changes nothing. -/
theorem foldl_of_settled (hId : ∀ q b, Sett q b → f q b = q) :
    ∀ (l : List β) (q : List ScheduledJob), (∀ b ∈ l, Sett q b) → l.foldl f q = q := by
  intro l
  induction l with
  | nil => intro q _; rfl
  | cons x l ih =>
    intro q h
    rw [List.foldl_cons, hId q x (h x (List.mem_cons_self _ _))]
    exact ih q (fun b hb => h b (List.mem_cons_of_mem _ hb))

/-- An append-only, self-settling, settled-skipping step is idempotent as a
fold. -/
theorem foldl_idem (hApp : ∀ q b, ∃ s, f q b = q ++ s)
    (hMono : ∀ q s b, Sett q b → Sett (q ++ s) b)
    (hSettles : ∀ q b, Sett (f q b) b)
    (hId : ∀ q b, Sett q b → f q b = q)
    (l : List β) (q : List ScheduledJob) :
    l.foldl f (l.foldl f q) = l.foldl f q :=
  foldl_of_settled f Sett hId l _ (foldl_settles f Sett hApp hMono hSettles l q)

end FoldSettled

/-- An (event, timing) pair is settled in a queue when discovery would skip
it: its scheduled instant is past, or its deterministic job id is present. -/
def timingSettled (now : Int) (event : OddsEvent) (q : List ScheduledJob)
    (timing : TimingConfig) : Prop :=
  calculateScheduledTime event.commenceTime timing.hoursBeforeKickoff < now ∨
  (getJob q (generateJobId event.id timing.name)).isSome = true

/-- Lookup distributes over queue append, preferring the left queue. -/
theorem getJob_append (q s : List ScheduledJob) (i : String) :
    getJob (q ++ s) i = (getJob q i).or (getJob s i) := by
  simp [getJob, List.find?_append]

/-- One timing step only ever appends to the queue. -/
theorem discoverTiming_appendOnly (now : Int) (league : LeagueConfig)
    (event : OddsEvent) (home away : String) (q : List ScheduledJob)
    (timing : TimingConfig) :
    ∃ s, discoverTiming now league event home away q timing = q ++ s := by
  unfold discoverTiming
  by_cases hpast : calculateScheduledTime event.commenceTime timing.hoursBeforeKickoff < now
  · exact ⟨[], by simp [hpast]⟩
  · cases hg : getJob q (generateJobId event.id timing.name) with
    | some j => exact ⟨[], by simp [hpast, hg]⟩
    | none =>
      exact ⟨[discoveryJobRow now league event home away timing
        (calculateScheduledTime event.commenceTime timing.hoursBeforeKickoff)],
        by simp [hpast, hg]⟩

/-- Settledness of a pair survives appending rows to the queue. -/
theorem timingSettled_mono (now : Int) (event : OddsEvent) (q s : List ScheduledJob)
    (timing : TimingConfig) (h : timingSettled now event q timing) :
    timingSettled now event (q ++ s) timing := by
  rcases h with hp | hs
  · exact Or.inl hp
  · right
    obtain ⟨j, hj⟩ := Option.isSome_iff_exists.mp hs
    simp [getJob_append, hj]

/-- One timing step settles its own pair. -/
theorem discoverTiming_settles (now : Int) (league : LeagueConfig) (event : OddsEvent)
    (home away : String) (q : List ScheduledJob) (timing : TimingConfig) :
    timingSettled now event (discoverTiming now league event home away q timing) timing := by
  unfold timingSettled discoverTiming
  by_cases hpast : calculateScheduledTime event.commenceTime timing.hoursBeforeKickoff < now
  · exact Or.inl hpast
  · right
    cases hg : getJob q (generateJobId event.id timing.name) with
    | some j => simp [hpast, hg]
    | none =>
      simp only [hpast, hg, if_neg, ite_false]
      rw [getJob_append, hg]
      simp [getJob, discoveryJobRow, List.find?_cons]

/-- One timing step skips a settled pair. -/
theorem discoverTiming_of_settled (now : Int) (league : LeagueConfig) (event : OddsEvent)
    (home away : String) (q : List ScheduledJob) (timing : TimingConfig)
    (h : timingSettled now event q timing) :
    discoverTiming now league event home away q timing = q := by
  unfold discoverTiming
  by_cases hpast : calculateScheduledTime event.commenceTime timing.hoursBeforeKickoff < now
  · simp [hpast]
  · rcases h with hp | hs
    · exact absurd hp hpast
    · obtain ⟨j, hj⟩ := Option.isSome_iff_exists.mp hs
      simp [hpast, hj]

/-- An event is settled when each configured timing offset is. -/
def eventSettled (now : Int) (timings : List TimingConfig) (q : List ScheduledJob)
    (event : OddsEvent) : Prop :=
  ∀ t ∈ timings, timingSettled now event q t

/-- Per-event discovery only ever appends to the queue. -/
theorem discoverEvent_appendOnly (now : Int) (timings : List TimingConfig)
    (league : LeagueConfig) (q : List ScheduledJob) (event : OddsEvent) :
    ∃ s, discoverEvent now timings league q event = q ++ s :=
  foldl_appendOnly _ (fun q t => discoverTiming_appendOnly now league event _ _ q t)
    timings q

/-- Event settledness survives appending rows to the queue. -/
theorem eventSettled_mono (now : Int) (timings : List TimingConfig)
    (q s : List ScheduledJob) (event : OddsEvent)
    (h : eventSettled now timings q event) :
    eventSettled now timings (q ++ s) event :=
  fun t ht => timingSettled_mono now event q s t (h t ht)

/-- Per-event discovery settles its own event for every timing offset. -/
theorem discoverEvent_settles (now : Int) (timings : List TimingConfig)
    (league : LeagueConfig) (q : List ScheduledJob) (event : OddsEvent) :
    eventSettled now timings (discoverEvent now timings league q event) event :=
  fun t ht =>
    foldl_settles _ (timingSettled now event)
      (fun q t => discoverTiming_appendOnly now league event _ _ q t)
      (fun q s t h => timingSettled_mono now event q s t h)
      (fun q t => discoverTiming_settles now league event _ _ q t)
      timings q t ht

/-- Per-event discovery leaves the queue unchanged on a settled event. -/
theorem discoverEvent_of_settled (now : Int) (timings : List TimingConfig)
    (league : LeagueConfig) (q : List ScheduledJob) (event : OddsEvent)
    (h : eventSettled now timings q event) :
    discoverEvent now timings league q event = q :=
  foldl_of_settled _ (timingSettled now event)
    (fun q t ht => discoverTiming_of_settled now league event _ _ q t ht)
    timings q h

/-- A league item (its config and fetched events) is settled when each of
its events is. -/
def leagueSettled (now : Int) (timings : List TimingConfig) (q : List ScheduledJob)
    (li : LeagueConfig × List OddsEvent) : Prop :=
  ∀ e ∈ li.2, eventSettled now timings q e

/-- Per-league discovery only ever appends to the queue. -/
theorem discoverLeague_appendOnly (now : Int) (timings : List TimingConfig)
    (q : List ScheduledJob) (li : LeagueConfig × List OddsEvent) :
    ∃ s, li.2.foldl (discoverEvent now timings li.1) q = q ++ s :=
  foldl_appendOnly _ (fun q e => discoverEvent_appendOnly now timings li.1 q e) li.2 q

/-- League settledness survives appending rows to the queue. -/
theorem leagueSettled_mono (now : Int) (timings : List TimingConfig)
    (q s : List ScheduledJob) (li : LeagueConfig × List OddsEvent)
    (h : leagueSettled now timings q li) :
    leagueSettled now timings (q ++ s) li :=
  fun e he => eventSettled_mono now timings q s e (h e he)

/-- Per-league discovery settles every event of the league. -/
theorem discoverLeague_settles (now : Int) (timings : List TimingConfig)
    (q : List ScheduledJob) (li : LeagueConfig × List OddsEvent) :
    leagueSettled now timings (li.2.foldl (discoverEvent now timings li.1) q) li :=
  fun e he =>
    foldl_settles _ (eventSettled now timings)
      (fun q e => discoverEvent_appendOnly now timings li.1 q e)
      (fun q s e h => eventSettled_mono now timings q s e h)
      (fun q e => discoverEvent_settles now timings li.1 q e)
      li.2 q e he

/-- Per-league discovery leaves the queue unchanged on a settled league. -/
theorem discoverLeague_of_settled (now : Int) (timings : List TimingConfig)
    (q : List ScheduledJob) (li : LeagueConfig × List OddsEvent)
    (h : leagueSettled now timings q li) :
    li.2.foldl (discoverEvent now timings li.1) q = q :=
  foldl_of_settled _ (eventSettled now timings)
    (fun q e he => discoverEvent_of_settled now timings li.1 q e he)
    li.2 q h

/-- C1: discovery is idempotent — running the discovery pass a second time
against the unchanged fixture lists, timing offsets and clock leaves the
job queue exactly as the first pass left it, because each (fixture, offset)
pair is skipped as past or as already present under its deterministic id. -/
theorem discoverEvents_idempotent (now : Int) (timings : List TimingConfig)
    (q : List ScheduledJob) (inputs : List (LeagueConfig × List OddsEvent)) :
    discoverEvents now timings (discoverEvents now timings q inputs) inputs =
      discoverEvents now timings q inputs :=
  foldl_idem _ (leagueSettled now timings)
    (fun q li => discoverLeague_appendOnly now timings q li)
    (fun q s li h => leagueSettled_mono now timings q s li h)
    (fun q li => discoverLeague_settles now timings q li)
    (fun q li h => discoverLeague_of_settled now timings q li h)
    inputs q

end OddsCollector
